import Mathlib

/-!
Shallow embedding of the puppet persistence component
(`database/puppet.go` of the mautrix-whatsapp bridge).

The storage backend is modelled as a list of rows with nullable columns
(`Option`), statement execution as pure functions on that list, and the
log as an explicit list of entries.  External collaborators that the
specification excludes (the SQL engine, the logger, the identifier and
content-URI types) are modelled at the interface level: a JID is its
(user, server) pair, a content URI is represented by its string
serialization with parse and serialize treated as mutually inverse, and
statement execution never fails (a failing execution only adds a log
line in the original and is outside this deterministic model).
-/

/-- Go time.Time, reduced to the data this component observes: Unix
seconds and the sub-second nanosecond part.  The zero value of
time.Time (January 1, year 1 UTC) sits at Unix second -62135596800. -/
structure GoTime where
  sec : Int
  nsec : Int
deriving DecidableEq, Repr

/-- The zero value of Go time.Time, expressed in Unix seconds. -/
def GoTime.zero : GoTime := { sec := -62135596800, nsec := 0 }

/-- time.Time.IsZero. -/
def GoTime.isZero (t : GoTime) : Bool := t = GoTime.zero

/-- time.Time.Unix: epoch seconds. -/
def GoTime.unix (t : GoTime) : Int := t.sec

/-- time.Unix(sec, 0). -/
def timeUnix (sec : Int) : GoTime := { sec := sec, nsec := 0 }

/-- whatsmeow types.JID, reduced to the two fields this component reads. -/
structure JID where
  user : String
  server : String
deriving DecidableEq, Repr

/-- whatsmeow types.DefaultUserServer. -/
def DefaultUserServer : String := "s.whatsapp.net"

/-- whatsmeow types.NewJID. -/
def NewJID (user server : String) : JID := { user := user, server := server }

/-- Go conversion int64 -> int8 (two's-complement truncation). -/
def int8ofInt (x : Int) : Int := (x + 128) % 256 - 128

/-- One row of the puppet table.  Every column is nullable at the SQL
level (`none` models NULL); the Scan destinations are sql.NullXxx for
all columns except username, which is scanned into a plain string. -/
structure Row where
  username : Option String
  avatar : Option String
  avatar_url : Option String
  displayname : Option String
  name_quality : Option Int
  name_set : Option Bool
  avatar_set : Option Bool
  last_sync : Option Int
  custom_mxid : Option String
  access_token : Option String
  next_batch : Option String
  enable_presence : Option Bool
  enable_receipts : Option Bool
  first_activity_ts : Option Int
  last_activity_ts : Option Int
deriving DecidableEq, Repr

/-- A row with every column NULL; used as a getD default. -/
def defaultRow : Row :=
  { username := none, avatar := none, avatar_url := none, displayname := none
    name_quality := none, name_set := none, avatar_set := none, last_sync := none
    custom_mxid := none, access_token := none, next_batch := none
    enable_presence := none, enable_receipts := none
    first_activity_ts := none, last_activity_ts := none }

/-- The in-memory Puppet entity (the db/log handles are modelled as
explicit arguments of the operations instead of stored fields). -/
structure Puppet where
  JID : JID
  Avatar : String
  AvatarURL : String
  AvatarSet : Bool
  Displayname : String
  NameQuality : Int
  NameSet : Bool
  LastSync : GoTime
  CustomMXID : String
  AccessToken : String
  NextBatch : String
  EnablePresence : Bool
  EnableReceipts : Bool
  FirstActivityTs : Int
  LastActivityTs : Int
deriving DecidableEq, Repr

/-- Log entries this component can emit in the deterministic model
(statement-failure warnings cannot occur because statement execution is
modelled as always succeeding). -/
inductive LogEntry where
  | warnNotInserting (jid : JID)
  | debugUpdatingActivity (jid : JID) (ts : Int)
  | errorScanFailed
deriving DecidableEq, Repr

/-- SQL statements issued by the operations, recorded as a trace. -/
inductive Stmt where
  | insertRow (r : Row)
  | updateLastActivity (ts : Int) (user : String)
  | updateFirstActivityIfNull (ts : Int) (user : String)
deriving DecidableEq, Repr

/-- PuppetQuery.New: a fresh record with EnablePresence and
EnableReceipts true and every other field at its Go zero value. -/
def PuppetQuery.New : Puppet :=
  { JID := { user := "", server := "" }
    Avatar := "", AvatarURL := "", AvatarSet := false
    Displayname := "", NameQuality := 0, NameSet := false
    LastSync := GoTime.zero
    CustomMXID := "", AccessToken := "", NextBatch := ""
    EnablePresence := true, EnableReceipts := true
    FirstActivityTs := 0, LastActivityTs := 0 }

/-- What row.Scan hands to Puppet.Scan: no matching row (sql.ErrNoRows),
some other driver error, or a row of column values. -/
inductive ScanResult where
  | noRows
  | scanError
  | ok (r : Row)
deriving DecidableEq, Repr

/-- Whether the row.Scan call inside Puppet.Scan fails: it fails on
sql.ErrNoRows, on a driver error, and on a NULL username column (the
only destination that is a plain *string rather than a Null type). -/
def ScanResult.failsB : ScanResult → Bool
  | .noRows => true
  | .scanError => true
  | .ok r => r.username.isNone

/-- Puppet.Scan as a state transformer on the receiver: the first
component is the receiver's field state after the call, the second is
the returned pointer (none models returning nil), the third is the log
output.  Mirrors the source line by line: the receiver is only written
after row.Scan has succeeded. -/
def Puppet.scanS (puppet : Puppet) (input : ScanResult) :
    Puppet × Option Puppet × List LogEntry :=
  match input with
  | .noRows => (puppet, none, [])
  | .scanError => (puppet, none, [LogEntry.errorScanFailed])
  | .ok r =>
    match r.username with
    | none => (puppet, none, [LogEntry.errorScanFailed])
    | some username =>
      let p : Puppet :=
        { puppet with
          JID := NewJID username DefaultUserServer
          Displayname := r.displayname.getD ""
          Avatar := r.avatar.getD ""
          AvatarURL := r.avatar_url.getD ""
          NameQuality := int8ofInt (r.name_quality.getD 0)
          NameSet := r.name_set.getD false
          AvatarSet := r.avatar_set.getD false
          LastSync := if r.last_sync.getD 0 > 0
                      then timeUnix (r.last_sync.getD 0)
                      else puppet.LastSync
          CustomMXID := r.custom_mxid.getD ""
          AccessToken := r.access_token.getD ""
          NextBatch := r.next_batch.getD ""
          EnablePresence := r.enable_presence.getD false
          EnableReceipts := r.enable_receipts.getD false
          FirstActivityTs := r.first_activity_ts.getD 0
          LastActivityTs := r.last_activity_ts.getD 0 }
      (p, some p, [])

/-- pq.New().Scan(row) on a successfully fetched row. -/
def scanNewRow (r : Row) : Option Puppet :=
  (Puppet.scanS PuppetQuery.New (ScanResult.ok r)).2.1

/-- The WHERE custom_mxid<>'' predicate of GetAllWithCustomMXID under
SQL three-valued logic: a NULL custom_mxid does not match. -/
def customMXIDNonEmpty (r : Row) : Bool :=
  match r.custom_mxid with
  | some s => s ≠ ""
  | none => false

/-- PuppetQuery.GetAll: decode every row of the table; a failed decode
contributes a nil pointer (none) at that row's position. -/
def PuppetQuery.GetAll (db : List Row) : List (Option Puppet) :=
  db.map scanNewRow

/-- PuppetQuery.GetAllWithCustomMXID (the spec's GetAllWithLinkedIdentity):
same as GetAll restricted to rows whose custom_mxid is non-empty. -/
def PuppetQuery.GetAllWithCustomMXID (db : List Row) : List (Option Puppet) :=
  (db.filter customMXIDNonEmpty).map scanNewRow

/-- PuppetQuery.Get: QueryRow on username (first matching row in
storage order), then Scan on a fresh record; an empty result is
sql.ErrNoRows at Scan time. -/
def PuppetQuery.Get (db : List Row) (jid : JID) : Option Puppet :=
  match db.find? (fun r => decide (r.username = some jid.user)) with
  | none => (Puppet.scanS PuppetQuery.New ScanResult.noRows).2.1
  | some r => scanNewRow r

/-- The lastSyncTs local computed by Insert and Update: 0 for the zero
time, epoch seconds otherwise. -/
def Puppet.lastSyncTs (puppet : Puppet) : Int :=
  if puppet.LastSync.isZero then 0 else puppet.LastSync.unix

/-- The row written by Insert.  The INSERT column list omits
first_activity_ts and last_activity_ts, so those columns are NULL. -/
def Puppet.insertRow (puppet : Puppet) : Row :=
  { username := some puppet.JID.user
    avatar := some puppet.Avatar
    avatar_url := some puppet.AvatarURL
    avatar_set := some puppet.AvatarSet
    displayname := some puppet.Displayname
    name_quality := some puppet.NameQuality
    name_set := some puppet.NameSet
    last_sync := some puppet.lastSyncTs
    custom_mxid := some puppet.CustomMXID
    access_token := some puppet.AccessToken
    next_batch := some puppet.NextBatch
    enable_presence := some puppet.EnablePresence
    enable_receipts := some puppet.EnableReceipts
    first_activity_ts := none
    last_activity_ts := none }

/-- Puppet.Insert: refuse (warning only) unless the JID's server is the
default user server; otherwise append the encoded row.  Returns the new
table, the statement trace and the log output. -/
def Puppet.insert (puppet : Puppet) (db : List Row) :
    List Row × List Stmt × List LogEntry :=
  if puppet.JID.server ≠ DefaultUserServer then
    (db, [], [LogEntry.warnNotInserting puppet.JID])
  else
    (db ++ [puppet.insertRow], [Stmt.insertRow puppet.insertRow], [])

/-- The SET clause of Update applied to one row. -/
def Puppet.updateRow (puppet : Puppet) (r : Row) : Row :=
  { r with
    displayname := some puppet.Displayname
    name_quality := some puppet.NameQuality
    name_set := some puppet.NameSet
    avatar := some puppet.Avatar
    avatar_url := some puppet.AvatarURL
    avatar_set := some puppet.AvatarSet
    last_sync := some puppet.lastSyncTs
    custom_mxid := some puppet.CustomMXID
    access_token := some puppet.AccessToken
    next_batch := some puppet.NextBatch
    enable_presence := some puppet.EnablePresence
    enable_receipts := some puppet.EnableReceipts }

/-- Puppet.Update: overwrite the mutable columns of every row whose
username equals the record's local part (a NULL username never
matches). -/
def Puppet.update (puppet : Puppet) (db : List Row) : List Row :=
  db.map fun r =>
    if r.username = some puppet.JID.user then puppet.updateRow r else r

/-- UPDATE puppet SET last_activity_ts=$1 WHERE username=$2. -/
def execUpdateLastActivity (db : List Row) (ts : Int) (user : String) :
    List Row :=
  db.map fun r =>
    if r.username = some user then { r with last_activity_ts := some ts } else r

/-- UPDATE puppet SET first_activity_ts=$1
WHERE username=$2 AND first_activity_ts is NULL. -/
def execUpdateFirstActivityIfNull (db : List Row) (ts : Int) (user : String) :
    List Row :=
  db.map fun r =>
    if r.username = some user ∧ r.first_activity_ts = none then
      { r with first_activity_ts := some ts }
    else r

/-- The observable outcome of one UpdateActivityTs call. -/
structure ActEffect where
  puppet : Puppet
  db : List Row
  execs : List Stmt
  logs : List LogEntry
deriving DecidableEq, Repr

/-- Puppet.UpdateActivityTs, line by line: return at once when the
in-memory LastActivityTs is strictly greater than the argument;
otherwise log, write LastActivityTs in memory and in storage, and when
the in-memory FirstActivityTs is 0 also set it and issue the
conditional first_activity_ts write. -/
def Puppet.updateActivityTs (puppet : Puppet) (db : List Row) (ts : Int) :
    ActEffect :=
  let signedTs := ts
  if puppet.LastActivityTs > signedTs then
    { puppet := puppet, db := db, execs := [], logs := [] }
  else
    let p1 := { puppet with LastActivityTs := signedTs }
    let db1 := execUpdateLastActivity db p1.LastActivityTs p1.JID.user
    let execs1 := [Stmt.updateLastActivity p1.LastActivityTs p1.JID.user]
    let logs1 := [LogEntry.debugUpdatingActivity puppet.JID signedTs]
    if p1.FirstActivityTs = 0 then
      let p2 := { p1 with FirstActivityTs := signedTs }
      let db2 := execUpdateFirstActivityIfNull db1 p2.FirstActivityTs p2.JID.user
      { puppet := p2, db := db2
        execs := execs1 ++ [Stmt.updateFirstActivityIfNull p2.FirstActivityTs p2.JID.user]
        logs := logs1 }
    else
      { puppet := p1, db := db1, execs := execs1, logs := logs1 }

/-- A sequence of UpdateActivityTs calls on the same record, threading
the in-memory state and the storage state. -/
def runActivityUpdates (puppet : Puppet) (db : List Row) (tss : List Int) :
    Puppet × List Row :=
  tss.foldl (fun st t =>
    ((Puppet.updateActivityTs st.1 st.2 t).puppet,
     (Puppet.updateActivityTs st.1 st.2 t).db)) (puppet, db)

/-! ## Concrete inputs used by counterexamples and witnesses -/

/-- A record with nonzero activity fields, used to probe the
UpdateActivityTs guard at an equal timestamp. -/
def c1Puppet : Puppet :=
  { JID := { user := "u", server := DefaultUserServer }
    Avatar := "", AvatarURL := "", AvatarSet := false
    Displayname := "", NameQuality := 0, NameSet := false
    LastSync := GoTime.zero
    CustomMXID := "", AccessToken := "", NextBatch := ""
    EnablePresence := true, EnableReceipts := true
    FirstActivityTs := 3, LastActivityTs := 5 }

/-- A freshly created record (both activity fields 0) for the user "w". -/
def c2Puppet : Puppet :=
  { PuppetQuery.New with JID := { user := "w", server := DefaultUserServer } }

/-- The stored row for "w" before any activity update: both activity
columns NULL (as left by Insert). -/
def c2Db : List Row := [{ defaultRow with username := some "w" }]

/-- A single-row table matching c1Puppet's username, used to exercise
Update. -/
def c6Db : List Row := [{ defaultRow with username := some "u" }]

/-- A row whose last_sync column holds a negative value. -/
def c7Row : Row :=
  { defaultRow with username := some "n", last_sync := some (-5) }

/-- A decodable row with a positive last_sync value. -/
def c7wRow : Row :=
  { defaultRow with username := some "v", last_sync := some 3 }

/-- A row that fails to decode (NULL username) but passes the
custom_mxid filter. -/
def c9Row : Row :=
  { defaultRow with custom_mxid := some "@linked:example.com" }

/-- A fully populated record with a valid domain, fresh activity
fields, and a positive whole-second LastSync. -/
def c5Puppet : Puppet :=
  { JID := { user := "1234", server := DefaultUserServer }
    Avatar := "avhash", AvatarURL := "mxc://example.com/file"
    AvatarSet := true, Displayname := "Display"
    NameQuality := 3, NameSet := true
    LastSync := { sec := 1700000000, nsec := 0 }
    CustomMXID := "@custom:example.com", AccessToken := "tok", NextBatch := "nb"
    EnablePresence := true, EnableReceipts := false
    FirstActivityTs := 0, LastActivityTs := 0 }

/-- A record with nonzero activity fields and an epoch-second-zero
(but not Go-zero) LastSync; its fields are lost by Insert + Get. -/
def c5BadPuppet : Puppet :=
  { PuppetQuery.New with
    JID := { user := "123", server := DefaultUserServer }
    LastSync := { sec := 0, nsec := 0 }
    FirstActivityTs := 7, LastActivityTs := 7 }

/-! ## C1: the early-return guard of UpdateActivityTs -/

/-- C1 counterexample: with LastActivityTs = 5, the call
UpdateActivityTs(5) supplies a timestamp not greater than the current
value, yet it does not return immediately: it emits the debug log line
and issues the last_activity_ts storage write (the guard in the source
is strict: it returns only when LastActivityTs > ts). -/
theorem updateActivityTs_equal_ts_not_noop :
    (5 : Int) ≤ c1Puppet.LastActivityTs ∧
    (Puppet.updateActivityTs c1Puppet [] 5).logs ≠ [] ∧
    (Puppet.updateActivityTs c1Puppet [] 5).execs ≠ [] := by
  decide

/-- C1 (amended): if the supplied timestamp is strictly less than the
current LastActivityTs, UpdateActivityTs returns immediately: the
record, the storage state, the statement trace and the log output are
all untouched. -/
theorem updateActivityTs_stale_noop (p : Puppet) (db : List Row) (ts : Int)
    (h : ts < p.LastActivityTs) :
    Puppet.updateActivityTs p db ts =
      { puppet := p, db := db, execs := [], logs := [] } := by
  unfold Puppet.updateActivityTs
  simp [h]

/-- Witness for the amended C1 at a concrete stale timestamp. -/
theorem updateActivityTs_stale_noop_witness :
    (4 : Int) < c1Puppet.LastActivityTs ∧
    Puppet.updateActivityTs c1Puppet [] 4 =
      { puppet := c1Puppet, db := [], execs := [], logs := [] } :=
  ⟨by decide, updateActivityTs_stale_noop c1Puppet [] 4 (by decide)⟩

/-! ## C3: LastActivityTs is monotonically non-decreasing -/

/-- C3: every UpdateActivityTs call leaves the in-memory LastActivityTs
greater than or equal to its value before the call. -/
theorem updateActivityTs_monotone (p : Puppet) (db : List Row) (ts : Int) :
    p.LastActivityTs ≤ (Puppet.updateActivityTs p db ts).puppet.LastActivityTs := by
  unfold Puppet.updateActivityTs
  by_cases h : p.LastActivityTs > ts
  · simp [h]
  · simp only [h, if_false]
    split <;> simp <;> omega

/-! ## C4: Insert on a non-default domain -/

/-- C4: on a record whose JID server differs from the default user
server, Insert leaves the table untouched, issues no statement, and
only emits the "not inserting" warning; no error reaches the caller
(the operation returns normally). -/
theorem insert_wrong_domain_noop (p : Puppet) (db : List Row)
    (h : p.JID.server ≠ DefaultUserServer) :
    Puppet.insert p db = (db, [], [LogEntry.warnNotInserting p.JID]) := by
  unfold Puppet.insert
  simp [h]

/-- Witness for C4 on a concrete group JID. -/
theorem insert_wrong_domain_noop_witness :
    { c1Puppet with JID := { user := "g", server := "g.us" } }.JID.server ≠
        DefaultUserServer ∧
    Puppet.insert { c1Puppet with JID := { user := "g", server := "g.us" } } [] =
      ([], [], [LogEntry.warnNotInserting { user := "g", server := "g.us" }]) :=
  ⟨by decide,
   insert_wrong_domain_noop
     { c1Puppet with JID := { user := "g", server := "g.us" } } [] (by decide)⟩

/-! ## C10: Scan is atomic on failure -/

/-- C10: whenever the row decode fails (no matching row, a driver
error, or a NULL username), Scan returns nil and leaves every field of
the receiver unchanged. -/
theorem scan_failure_atomic (p : Puppet) (input : ScanResult)
    (h : ScanResult.failsB input = true) :
    (Puppet.scanS p input).1 = p ∧ (Puppet.scanS p input).2.1 = none := by
  cases input with
  | noRows => exact ⟨rfl, rfl⟩
  | scanError => exact ⟨rfl, rfl⟩
  | ok r =>
    cases hr : r.username with
    | none => simp [Puppet.scanS, hr]
    | some u =>
      exfalso
      simp [ScanResult.failsB, hr] at h

/-- Witness for C10 on the no-matching-row input. -/
theorem scan_failure_atomic_witness :
    ScanResult.failsB ScanResult.noRows = true ∧
    ((Puppet.scanS c1Puppet ScanResult.noRows).1 = c1Puppet ∧
     (Puppet.scanS c1Puppet ScanResult.noRows).2.1 = none) :=
  ⟨rfl, scan_failure_atomic c1Puppet ScanResult.noRows rfl⟩

/-! ## C2: FirstActivityTs first-write semantics -/

/-- Helper: once the in-memory FirstActivityTs is nonzero, an
UpdateActivityTs call never changes it. -/
theorem updateActivityTs_keeps_nonzero_first (p : Puppet) (db : List Row)
    (ts : Int) (h : p.FirstActivityTs ≠ 0) :
    (Puppet.updateActivityTs p db ts).puppet.FirstActivityTs =
      p.FirstActivityTs := by
  unfold Puppet.updateActivityTs
  by_cases hg : p.LastActivityTs > ts
  · simp [hg]
  · simp [hg, h]

/-- Helper: a whole sequence of UpdateActivityTs calls keeps a nonzero
FirstActivityTs unchanged. -/
theorem runActivityUpdates_keeps_nonzero_first (tss : List Int) (p : Puppet)
    (db : List Row) (h : p.FirstActivityTs ≠ 0) :
    (runActivityUpdates p db tss).1.FirstActivityTs = p.FirstActivityTs := by
  induction tss generalizing p db with
  | nil => rfl
  | cons t rest ih =>
    have hstep : runActivityUpdates p db (t :: rest) =
        runActivityUpdates (Puppet.updateActivityTs p db t).puppet
          (Puppet.updateActivityTs p db t).db rest := rfl
    rw [hstep, ih _ _ (by rw [updateActivityTs_keeps_nonzero_first p db t h]; exact h),
      updateActivityTs_keeps_nonzero_first p db t h]

/-- C2 counterexample: on a fresh record, UpdateActivityTs(0) passes
the guard (it logs and issues the conditional first_activity_ts
write, setting FirstActivityTs to its first-set value 0), yet the
subsequent call UpdateActivityTs(5) rewrites FirstActivityTs to 5:
the field is written twice and does not keep the first-set value. -/
theorem first_activity_rewritten_after_zero_first_write :
    (Puppet.updateActivityTs c2Puppet c2Db 0).logs ≠ [] ∧
    Stmt.updateFirstActivityIfNull 0 "w" ∈
      (Puppet.updateActivityTs c2Puppet c2Db 0).execs ∧
    (Puppet.updateActivityTs c2Puppet c2Db 0).puppet.FirstActivityTs = 0 ∧
    (Puppet.updateActivityTs (Puppet.updateActivityTs c2Puppet c2Db 0).puppet
        (Puppet.updateActivityTs c2Puppet c2Db 0).db 5).puppet.FirstActivityTs
      = 5 := by
  decide

/-- C2 (amended): when the first guard-passing call supplies a nonzero
timestamp, it sets FirstActivityTs to that timestamp in memory and
issues the conditional first_activity_ts storage write, and every
subsequent sequence of calls leaves FirstActivityTs equal to that
first-set value.  (A first-set value of 0 is indistinguishable from
"unset", so a later call may overwrite it; see the counterexample.) -/
theorem first_activity_write_once (p : Puppet) (db : List Row) (t : Int)
    (tss : List Int) (hfirst : p.FirstActivityTs = 0)
    (hguard : ¬ p.LastActivityTs > t) (hne : t ≠ 0) :
    (Puppet.updateActivityTs p db t).puppet.FirstActivityTs = t ∧
    Stmt.updateFirstActivityIfNull t p.JID.user ∈
      (Puppet.updateActivityTs p db t).execs ∧
    (runActivityUpdates (Puppet.updateActivityTs p db t).puppet
        (Puppet.updateActivityTs p db t).db tss).1.FirstActivityTs = t := by
  have h1 : (Puppet.updateActivityTs p db t).puppet.FirstActivityTs = t := by
    unfold Puppet.updateActivityTs
    simp [hguard, hfirst]
  refine ⟨h1, ?_, ?_⟩
  · unfold Puppet.updateActivityTs
    simp [hguard, hfirst]
  · rw [runActivityUpdates_keeps_nonzero_first tss _ _ (by rw [h1]; exact hne), h1]

/-- Witness for the amended C2: first write at ts = 3, then a stale and
a fresh call; FirstActivityTs stays 3. -/
theorem first_activity_write_once_witness :
    (c2Puppet.FirstActivityTs = 0 ∧ ¬ c2Puppet.LastActivityTs > 3 ∧
      (3 : Int) ≠ 0) ∧
    ((Puppet.updateActivityTs c2Puppet c2Db 3).puppet.FirstActivityTs = 3 ∧
     Stmt.updateFirstActivityIfNull 3 c2Puppet.JID.user ∈
       (Puppet.updateActivityTs c2Puppet c2Db 3).execs ∧
     (runActivityUpdates (Puppet.updateActivityTs c2Puppet c2Db 3).puppet
         (Puppet.updateActivityTs c2Puppet c2Db 3).db [1, 7]).1.FirstActivityTs
       = 3) :=
  ⟨by decide,
   first_activity_write_once c2Puppet c2Db 3 [1, 7] (by decide) (by decide)
     (by decide)⟩

/-! ## C6: Update overwrites the mutable columns of the keyed row -/

/-- C6: Update keeps the table size, and every row whose username
column equals the local part of the record's JID has all twelve
mutable columns overwritten with the record's in-memory fields (with
the zero/epoch encoding for LastSync), while its username and the two
activity-timestamp columns are untouched. -/
theorem update_overwrites_row (p : Puppet) (db : List Row) (i : Nat)
    (h : (db.getD i defaultRow).username = some p.JID.user) :
    (Puppet.update p db).length = db.length ∧
    (Puppet.update p db).getD i defaultRow =
      { db.getD i defaultRow with
        displayname := some p.Displayname
        name_quality := some p.NameQuality
        name_set := some p.NameSet
        avatar := some p.Avatar
        avatar_url := some p.AvatarURL
        avatar_set := some p.AvatarSet
        last_sync := some p.lastSyncTs
        custom_mxid := some p.CustomMXID
        access_token := some p.AccessToken
        next_batch := some p.NextBatch
        enable_presence := some p.EnablePresence
        enable_receipts := some p.EnableReceipts } := by
  refine ⟨by simp [Puppet.update], ?_⟩
  induction db generalizing i with
  | nil =>
    exfalso
    cases i <;> simp [defaultRow] at h
  | cons r rest ih =>
    cases i with
    | zero =>
      simp only [List.getD_cons_zero] at h ⊢
      simp [Puppet.update, Puppet.updateRow, h]
    | succ n =>
      simp only [List.getD_cons_succ] at h ⊢
      simpa [Puppet.update] using ih n h

/-- Witness for C6 on a one-row table keyed by "u". -/
theorem update_overwrites_row_witness :
    (c6Db.getD 0 defaultRow).username = some c1Puppet.JID.user ∧
    ((Puppet.update c1Puppet c6Db).length = c6Db.length ∧
     (Puppet.update c1Puppet c6Db).getD 0 defaultRow =
       { c6Db.getD 0 defaultRow with
         displayname := some c1Puppet.Displayname
         name_quality := some c1Puppet.NameQuality
         name_set := some c1Puppet.NameSet
         avatar := some c1Puppet.Avatar
         avatar_url := some c1Puppet.AvatarURL
         avatar_set := some c1Puppet.AvatarSet
         last_sync := some c1Puppet.lastSyncTs
         custom_mxid := some c1Puppet.CustomMXID
         access_token := some c1Puppet.AccessToken
         next_batch := some c1Puppet.NextBatch
         enable_presence := some c1Puppet.EnablePresence
         enable_receipts := some c1Puppet.EnableReceipts }) :=
  ⟨by decide, update_overwrites_row c1Puppet c6Db 0 (by decide)⟩

/-! ## C7: the last_sync decode rule of Scan -/

/-- C7 counterexample: a row whose last_sync column holds the nonzero
value -5 still decodes to the zero timestamp, not to epoch second -5:
the source only treats strictly positive values as epoch seconds. -/
theorem scan_negative_last_sync_cex :
    c7Row.last_sync = some (-5) ∧ ((-5 : Int) ≠ 0) ∧
    (scanNewRow c7Row).map Puppet.LastSync = some GoTime.zero ∧
    GoTime.zero ≠ timeUnix (-5) := by
  decide

/-- C7 (amended): on a successfully decoded row, LastSync is the zero
timestamp exactly when the backing last_sync value is not positive
(NULL decodes like 0), and every positive backing value is interpreted
as epoch seconds. -/
theorem scan_last_sync_decode (r : Row)
    (h : (scanNewRow r).isSome = true) :
    ((scanNewRow r).map Puppet.LastSync = some GoTime.zero ↔
      r.last_sync.getD 0 ≤ 0) ∧
    (0 < r.last_sync.getD 0 →
      (scanNewRow r).map Puppet.LastSync =
        some (timeUnix (r.last_sync.getD 0))) := by
  cases hu : r.username with
  | none => simp [scanNewRow, Puppet.scanS, hu] at h
  | some u =>
    by_cases hl : 0 < r.last_sync.getD 0
    · have hne : timeUnix (r.last_sync.getD 0) ≠ GoTime.zero := by
        simp only [timeUnix, GoTime.zero, ne_eq, GoTime.mk.injEq]
        omega
      simp [scanNewRow, Puppet.scanS, hu, hl, PuppetQuery.New, hne]
    · simp [scanNewRow, Puppet.scanS, hu, hl, PuppetQuery.New]
      omega

/-- Witness for the amended C7 on a row with last_sync = 3. -/
theorem scan_last_sync_decode_witness :
    (scanNewRow c7wRow).isSome = true ∧
    (((scanNewRow c7wRow).map Puppet.LastSync = some GoTime.zero ↔
        c7wRow.last_sync.getD 0 ≤ 0) ∧
     (0 < c7wRow.last_sync.getD 0 →
       (scanNewRow c7wRow).map Puppet.LastSync =
         some (timeUnix (c7wRow.last_sync.getD 0)))) :=
  ⟨rfl, scan_last_sync_decode c7wRow rfl⟩

/-! ## C9: failed decodes stay in the result lists as nil entries -/

/-- C9: GetAll and GetAllWithCustomMXID keep one entry per (selected)
row; a row whose decode fails contributes a nil (none) entry at that
row's position instead of being omitted. -/
theorem getAll_keeps_failed_rows (db : List Row) (i j : Nat) (r s : Row)
    (hi : db.get? i = some r) (hf : scanNewRow r = none)
    (hj : (db.filter customMXIDNonEmpty).get? j = some s)
    (hg : scanNewRow s = none) :
    (PuppetQuery.GetAll db).length = db.length ∧
    (PuppetQuery.GetAll db).get? i = some none ∧
    (PuppetQuery.GetAllWithCustomMXID db).length =
      (db.filter customMXIDNonEmpty).length ∧
    (PuppetQuery.GetAllWithCustomMXID db).get? j = some none := by
  refine ⟨by simp [PuppetQuery.GetAll], ?_, by simp [PuppetQuery.GetAllWithCustomMXID], ?_⟩
  · show (db.map scanNewRow).get? i = some none
    rw [List.get?_map, hi]
    simp [hf]
  · show ((db.filter customMXIDNonEmpty).map scanNewRow).get? j = some none
    rw [List.get?_map, hj]
    simp [hg]

/-- Witness for C9: a one-row table whose row has a NULL username (so
its decode fails) and a non-empty custom_mxid (so the filtered query
also selects it); both results hold a nil entry at position 0. -/
theorem getAll_keeps_failed_rows_witness :
    ([c9Row].get? 0 = some c9Row ∧ scanNewRow c9Row = none ∧
      ([c9Row].filter customMXIDNonEmpty).get? 0 = some c9Row) ∧
    ((PuppetQuery.GetAll [c9Row]).length = [c9Row].length ∧
     (PuppetQuery.GetAll [c9Row]).get? 0 = some none ∧
     (PuppetQuery.GetAllWithCustomMXID [c9Row]).length =
       ([c9Row].filter customMXIDNonEmpty).length ∧
     (PuppetQuery.GetAllWithCustomMXID [c9Row]).get? 0 = some none) :=
  ⟨by decide,
   getAll_keeps_failed_rows [c9Row] 0 0 c9Row c9Row (by decide) (by decide)
     (by decide) (by decide)⟩

/-! ## C8: GetAllWithCustomMXID as a filter of GetAll -/

/-- Helper: a row decodes to nil exactly when its username is NULL. -/
theorem scanNewRow_eq_none_iff (r : Row) :
    scanNewRow r = none ↔ r.username = none := by
  cases hu : r.username <;> simp [scanNewRow, Puppet.scanS, hu]

/-- Helper: a successful decode copies the custom_mxid column (NULL
becoming the empty string) into the CustomMXID field. -/
theorem scanNewRow_customMXID (r : Row) (p : Puppet)
    (h : scanNewRow r = some p) :
    p.CustomMXID = r.custom_mxid.getD "" := by
  cases hu : r.username with
  | none => simp [scanNewRow, Puppet.scanS, hu] at h
  | some u =>
    simp only [scanNewRow, Puppet.scanS, hu, Option.some.injEq] at h
    rw [← h]

/-- C8: the actual records (the non-nil entries) returned by
GetAllWithCustomMXID are exactly the records returned by GetAll whose
CustomMXID (the spec's LinkedLocalAccount) is non-empty, in the same
storage order. -/
theorem getAllWithCustomMXID_eq_filter (db : List Row) :
    List.filterMap id (PuppetQuery.GetAllWithCustomMXID db) =
      List.filter (fun p => p.CustomMXID ≠ "")
        (List.filterMap id (PuppetQuery.GetAll db)) := by
  unfold PuppetQuery.GetAllWithCustomMXID PuppetQuery.GetAll
  induction db with
  | nil => rfl
  | cons r rest ih =>
    by_cases hc : customMXIDNonEmpty r = true
    · rw [List.filter_cons_of_pos hc]
      simp only [List.map_cons, List.filterMap_cons]
      cases hs : scanNewRow r with
      | none => simpa using ih
      | some p =>
        have hp : (decide (p.CustomMXID ≠ "")) = true := by
          rw [scanNewRow_customMXID r p hs]
          cases hm : r.custom_mxid with
          | none => simp [customMXIDNonEmpty, hm] at hc
          | some s =>
            simp only [customMXIDNonEmpty, hm] at hc
            simpa using hc
        simp only [id_eq, List.filter_cons, hp, if_true]
        rw [ih]
    · rw [List.filter_cons_of_neg hc]
      simp only [List.map_cons, List.filterMap_cons]
      cases hs : scanNewRow r with
      | none => simpa using ih
      | some p =>
        have hp : (decide (p.CustomMXID ≠ "")) = false := by
          rw [scanNewRow_customMXID r p hs]
          cases hm : r.custom_mxid with
          | none => simp
          | some s =>
            simp only [customMXIDNonEmpty, hm] at hc
            simpa using hc
        simp only [id_eq, List.filter_cons, hp, if_false]
        exact ih

/-! ## C5: Insert followed by Get -/

/-- Helper: find? skips a prefix on which the predicate is false. -/
theorem find?_append_of_false {α : Type} (p : α → Bool) (l1 l2 : List α)
    (h : ∀ a ∈ l1, p a = false) :
    List.find? p (l1 ++ l2) = List.find? p l2 := by
  induction l1 with
  | nil => rfl
  | cons a l ih =>
    rw [List.cons_append, List.find?_cons_of_neg _ (by simp [h a (by simp)]),
      ih (fun x hx => h x (by simp [hx]))]

/-- C5 counterexample: a record with activity timestamps 7 and an
epoch-second-zero (hence nonzero) LastSync, inserted into an empty
table, does not read back equal to itself: Insert omits the activity
columns (they read back as 0) and a LastSync at epoch second 0 reads
back as the zero timestamp. -/
theorem insert_get_round_trip_cex :
    c5BadPuppet.JID.server = DefaultUserServer ∧
    PuppetQuery.Get (Puppet.insert c5BadPuppet []).1 c5BadPuppet.JID ≠
      some c5BadPuppet ∧
    (PuppetQuery.Get (Puppet.insert c5BadPuppet []).1 c5BadPuppet.JID).map
      Puppet.LastActivityTs = some 0 ∧
    c5BadPuppet.LastActivityTs = 7 ∧
    (PuppetQuery.Get (Puppet.insert c5BadPuppet []).1 c5BadPuppet.JID).map
      Puppet.LastSync = some GoTime.zero ∧
    c5BadPuppet.LastSync ≠ GoTime.zero := by
  decide

/-- C5 (amended): for a record with the default user domain, no
pre-existing row for its username, fresh (zero) activity-timestamp
fields, and a LastSync that is either the zero time or a whole-second
time with positive epoch seconds, Insert followed by Get on the same
JID returns a record equal to the original in every field (a zero
LastSync round-tripping to the zero timestamp).  The NameQuality
bounds mirror its int8 type in the source. -/
theorem insert_get_round_trip (p : Puppet) (db : List Row)
    (hserver : p.JID.server = DefaultUserServer)
    (hfresh : ∀ r ∈ db, r.username ≠ some p.JID.user)
    (hq1 : -128 ≤ p.NameQuality) (hq2 : p.NameQuality < 128)
    (hfa : p.FirstActivityTs = 0) (hla : p.LastActivityTs = 0)
    (hls : p.LastSync = GoTime.zero ∨
           (0 < p.LastSync.sec ∧ p.LastSync.nsec = 0)) :
    PuppetQuery.Get (Puppet.insert p db).1 p.JID = some p := by
  have hins : (Puppet.insert p db).1 = db ++ [p.insertRow] := by
    unfold Puppet.insert
    simp [hserver]
  have hfind : List.find? (fun r => decide (r.username = some p.JID.user))
      (db ++ [p.insertRow]) = some p.insertRow := by
    rw [find?_append_of_false _ db _
      (fun r hr => by simpa using hfresh r hr)]
    simp [Puppet.insertRow]
  rw [hins]
  unfold PuppetQuery.Get
  rw [hfind]
  show scanNewRow p.insertRow = some p
  obtain ⟨⟨u, s⟩, av, aurl, aset, dn, nq, ns, lsync, cm, atk, nb, ep, er, fa, la⟩ := p
  simp only at hserver hfa hla hq1 hq2
  subst hserver hfa hla
  simp only [scanNewRow, Puppet.scanS, Puppet.insertRow, Option.getD_some,
    Option.some.injEq, PuppetQuery.New, NewJID]
  have hnq : int8ofInt nq = nq := by
    unfold int8ofInt
    omega
  rcases hls with hz | ⟨hpos, hnsec⟩
  · simp only at hz
    subst hz
    simp [Puppet.lastSyncTs, GoTime.isZero, hnq]
  · obtain ⟨lsec, lnsec⟩ := lsync
    simp only at hpos hnsec
    subst hnsec
    have hnz : GoTime.isZero { sec := lsec, nsec := 0 } = false := by
      simp only [GoTime.isZero, GoTime.zero, GoTime.mk.injEq]
      simp only [decide_eq_false_iff_not]
      omega
    simp only [Puppet.lastSyncTs, hnz, Bool.false_eq_true, if_false,
      GoTime.unix, hnq]
    have : (0 : Int) < lsec := hpos
    simp [this, timeUnix]

/-- Witness for the amended C5: a fully populated record round-trips
through Insert and Get on an empty table. -/
theorem insert_get_round_trip_witness :
    (c5Puppet.JID.server = DefaultUserServer ∧
      (-128 ≤ c5Puppet.NameQuality ∧ c5Puppet.NameQuality < 128) ∧
      c5Puppet.FirstActivityTs = 0 ∧ c5Puppet.LastActivityTs = 0) ∧
    PuppetQuery.Get (Puppet.insert c5Puppet []).1 c5Puppet.JID =
      some c5Puppet :=
  ⟨⟨rfl, ⟨by decide, by decide⟩, rfl, rfl⟩,
   insert_get_round_trip c5Puppet [] rfl (by simp) (by decide) (by decide)
     rfl rfl (Or.inr ⟨by decide, rfl⟩)⟩
